import Mathlib

/-!
Verification of the `qhub develop` orchestration pipeline (`qhub/develop.py`).

The file shallowly embeds the pipeline: pure helpers (`os.path.join`,
`os.path.splitext`, `list_dockerfile_images`) become Lean functions; the
configuration document (a YAML mapping) becomes a structure whose `Option`
fields model possibly-missing dictionary keys (a `none` lookup is a Python
`KeyError`); external collaborators (`qhub.initialize.render_config`, the
YAML loader, git, minikube, the renderer and the deployer) become oracle
parameters; the side effects of a run become an explicit event trace, and a
raised exception becomes an `Except.error` that cuts the computation exactly
where the `raise` happens in the source.
-/

namespace QHubDev

/-- Python `s.startswith(pre)`: `pre` is a prefix of `s`, character-wise. -/
def startswith (s pre : String) : Bool :=
  pre.data.isPrefixOf s.data

/-- Python-style `s.endswith(suf)`: `suf` is a suffix of `s`, character-wise. -/
def endswith (s suf : String) : Bool :=
  suf.data.isSuffixOf s.data

/-- A string-to-string mapping with Python dict insertion-order semantics. -/
abbrev Smap := List (String × String)

/-- Python `m[k] = v` on a dict: update in place when the key exists
(keeping its position), append otherwise. -/
def dictSet (m : Smap) (k v : String) : Smap :=
  if m.any (fun kv => kv.1 == k) then
    m.map (fun kv => if kv.1 == k then (k, v) else kv)
  else
    m ++ [(k, v)]

/-- Python `m.get(k)` on a dict: value of the first entry with key `k`. -/
def dictGet (m : Smap) (k : String) : Option String :=
  (m.find? (fun kv => kv.1 == k)).map (fun kv => kv.2)

/-- Index of the last occurrence of `c` in the character list, if any. -/
def lastIndexOfChar (c : Char) : List Char → Option Nat
  | [] => none
  | x :: xs =>
    match lastIndexOfChar c xs with
    | some i => some (i + 1)
    | none => if x = c then some 0 else none

/-- Embedding of `os.path.splitext` (POSIX): split off the extension at the last dot,
unless every character of the base name before that dot is itself a dot. -/
def splitext (p : String) : String × String :=
  let sepIndex : Option Nat := lastIndexOfChar '/' p.data
  let dotIndex : Option Nat := lastIndexOfChar '.' p.data
  match dotIndex with
  | none => (p, "")
  | some di =>
    let si : Int := match sepIndex with
      | none => -1
      | some s => (s : Int)
    if si < (di : Int) then
      let filenameStart : Nat := (si + 1).toNat
      if ((p.data.drop filenameStart).take (di - filenameStart)).all (fun c => c = '.') then
        (p, "")
      else
        (String.mk (p.data.take di), String.mk (p.data.drop di))
    else
      (p, "")

/-- Embedding of `os.path.join a b` (POSIX, two arguments): `b` when absolute, otherwise
`a ++ b` with a separator inserted unless `a` is empty or already ends in one. -/
def os_path_join (a b : String) : String :=
  if startswith b "/" then b
  else if a.data.isEmpty || endswith a "/" then a ++ b
  else a ++ "/" ++ b

/-- The `QHUB_IMAGE_DIRECTORY` constant from `qhub/develop.py`. -/
def QHUB_IMAGE_DIRECTORY : String :=
  "qhub/template/\x7b\x7b cookiecutter.repo_directory \x7d\x7d/image/"

/-- Embedding of `list_dockerfile_images(directory)`: walk the directory listing, and for
every file name starting with `Dockerfile` record its joined path and the
extension-like suffix after the prefix (Python `os.path.splitext(path)[1][1:]`).
The directory listing is passed in explicitly (the result of `os.listdir`). -/
def list_dockerfile_images (directory : String) : List String → List String × List String
  | [] => ([], [])
  | path :: rest =>
    let r := list_dockerfile_images directory rest
    if startswith path "Dockerfile" then
      (os_path_join directory path :: r.1, ((splitext path).2.drop 1) :: r.2)
    else
      r

/-- A JupyterLab profile entry: `kubespawner_override` models that dict key
(`none` means the key is absent, so indexing raises `KeyError`), and `rest`
holds the remaining, untouched keys of the profile. -/
structure JLProfile where
  kubespawner_override : Option Smap
  rest : Smap := []
deriving Repr, DecidableEq

/-- A Dask worker profile entry: `image` models the `image` key (set by plain
dict assignment, so it may start absent), `rest` the remaining keys. -/
structure DaskProfile where
  image : Option String := none
  rest : Smap := []
deriving Repr, DecidableEq

/-- The `profiles` sub-document: the `jupyterlab` list and the `dask_worker`
name-to-profile mapping, each `none` when the key is absent. -/
structure Profiles where
  jupyterlab : Option (List JLProfile) := none
  dask_worker : Option (List (String × DaskProfile)) := none
  rest : Smap := []
deriving Repr, DecidableEq

/-- The configuration document: `domain`, `default_images` and `profiles`
model those top-level keys (`none` means absent); `rest` holds all other
top-level keys verbatim. -/
structure Config where
  domain : Option String := none
  default_images : Option Smap := none
  profiles : Option Profiles := none
  rest : Smap := []
deriving Repr, DecidableEq

/-- The `KeyError`s that `initialize_configuration` can raise, named after
the missing dictionary key. -/
inductive KeyErr where
  | profiles
  | jupyterlab
  | dask_worker
  | kubespawner_override
deriving Repr, DecidableEq

/-- Filesystem side effects performed by `initialize_configuration`, in order:
`os.makedirs(directory, exist_ok=True)` and the YAML dump of the document. -/
inductive FsOp where
  | makedirs (dir : String)
  | write_yaml (path : String) (doc : Config)
deriving Repr, DecidableEq

/-- Equality of `Except` values is decidable when it is so componentwise. -/
def exceptDecEq {ε α : Type} [DecidableEq ε] [DecidableEq α] :
    DecidableEq (Except ε α) := fun x y =>
  match x, y with
  | .ok a, .ok b =>
    if h : a = b then .isTrue (by rw [h]) else .isFalse (fun hh => h (Except.ok.inj hh))
  | .error a, .error b =>
    if h : a = b then .isTrue (by rw [h]) else .isFalse (fun hh => h (Except.error.inj hh))
  | .ok _, .error _ => .isFalse (fun hh => by cases hh)
  | .error _, .ok _ => .isFalse (fun hh => by cases hh)

instance {ε α : Type} [DecidableEq ε] [DecidableEq α] : DecidableEq (Except ε α) :=
  exceptDecEq

/-- The `for jupyterlab_profile in config["profiles"]["jupyterlab"]` loop:
each profile has `["kubespawner_override"]["image"]` set to
`jupyterlab:image_tag`; a profile without the `kubespawner_override` key
raises `KeyError` at that point. -/
def overrideJLProfiles (image_tag : String) : List JLProfile → Except KeyErr (List JLProfile)
  | [] => .ok []
  | p :: rest =>
    match p.kubespawner_override with
    | none => .error .kubespawner_override
    | some ko =>
      match overrideJLProfiles image_tag rest with
      | .error e => .error e
      | .ok rest' =>
        let ko' := dictSet ko "image" ("jupyterlab:" ++ image_tag)
        .ok ({ p with kubespawner_override := some ko' } :: rest')

/-- The `for name, dask_worker_profile in config["profiles"]["dask_worker"].items()`
loop: each profile gets `["image"] = f"dask-worker:{image_tag}"`. -/
def overrideDaskProfiles (image_tag : String)
    (l : List (String × DaskProfile)) : List (String × DaskProfile) :=
  l.map (fun np => (np.1, { np.2 with image := some ("dask-worker:" ++ image_tag) }))

/-- The five-entry mapping assigned to `config` key `default_images` in
`initialize_configuration`. -/
def defaultImages (image_tag : String) : Smap :=
  [("jupyterhub", "jupyterhub:" ++ image_tag),
   ("jupyterlab", "jupyterlab:" ++ image_tag),
   ("dask_worker", "dask-worker:" ++ image_tag),
   ("dask_gateway", "dask-gateway:" ++ image_tag),
   ("conda_store", "conda-store:" ++ image_tag)]

/-- The `if build_images:` block of `initialize_configuration`: replace
`config` key `default_images` by the five fixed entries and run the two
profile override loops, propagating any `KeyError`. The source assigns
`default_images` before the loops run; on a `KeyError` the partially
mutated dict is discarded un-returned and un-persisted, so folding that
assignment into the success value is observationally identical. -/
def applyBuildImages (image_tag : String) (c : Config) : Except KeyErr Config :=
  match c.profiles with
  | none => .error .profiles
  | some profs =>
    match profs.jupyterlab with
    | none => .error .jupyterlab
    | some jl =>
      match overrideJLProfiles image_tag jl with
      | .error e => .error e
      | .ok jl' =>
        match profs.dask_worker with
        | none => .error .dask_worker
        | some dw =>
          .ok { c with default_images := some (defaultImages image_tag), profiles := some { profs with jupyterlab := some jl', dask_worker := some (overrideDaskProfiles image_tag dw) } }

/-- The base document of `initialize_configuration`: the YAML-loaded override
when a `config` path was supplied (the `if config:` branch), else the default
document from `initialize.render_config`. -/
def base_config (render_config load_config : String → Config)
    (domain : String) (config : Option String) : Config :=
  match config with
  | some path => load_config path
  | none => render_config domain

/-- Embedding of `initialize_configuration(directory, image_tag, build_images, domain, config)`.
`render_config` models the external `qhub.initialize.render_config` collaborator
(the default document, as a function of the domain); `load_config` models
opening and YAML-parsing the override path. Returns the filesystem operations
performed, in order, together with the returned document or the raised
`KeyError`; an error leaves the operation list empty because the source
raises before `os.makedirs` and the YAML dump. -/
def initialize_configuration (render_config : String → Config)
    (load_config : String → Config) (directory image_tag : String)
    (build_images : Bool) (domain : String) (config : Option String) :
    List FsOp × Except KeyErr Config :=
  let config_path := os_path_join directory "qhub-config.yaml"
  let base : Config := base_config render_config load_config domain config
  let c : Config := { base with domain := some domain }
  match (if build_images then applyBuildImages image_tag c else .ok c) with
  | .error e => ([], .error e)
  | .ok c2 => ([FsOp.makedirs directory, FsOp.write_yaml config_path c2], .ok c2)

/-- The observable calls a `develop` run makes on its collaborators, in order. -/
inductive Event where
  | minikube_start (kubernetes_version profile : String)
  | minikube_status (profile : String) (result : Bool)
  | configure_metallb (profile : String)
  | addons_enable (addon profile : String)
  | image_build (dockerfile_path context_dir image_name image_tag profile : String)
  | init_config (directory image_tag : String) (build_images : Bool) (domain : String)
  | render_template (output_dir config_path : String) (force : Bool)
  | deploy_configuration (doc : Config)
  | download_minikube
deriving Repr, DecidableEq

/-- The errors `develop` raises itself (`utils.QHubError`) or propagates from
`initialize_configuration`. -/
inductive QHubErr where
  | not_in_repository
  | cluster_start_failed
  | key_error (e : KeyErr)
deriving Repr, DecidableEq

/-- The external world a `develop` run observes: the git root and HEAD sha,
the minikube status answer, the listing of the image directory, and the two
configuration oracles. -/
structure Env where
  git_repo_root : Option String
  git_head_sha : String
  minikube_status : Bool
  image_dir_listing : List String
  render_config : String → Config
  load_config : String → Config

/-- The `develop(...)` pipeline: git-root precondition, minikube start and
status check, metallb setup, optional image builds over the discovered
Dockerfiles, configuration synthesis, render and deploy. Returns the event
trace up to the point the run ended, with the synthesized document on
success or the error that aborted the run. -/
def develop (env : Env) (build_images : Bool)
    (profile kubernetes_version domain : String) (config : Option String) :
    List Event × Except QHubErr Config :=
  match env.git_repo_root with
  | none => ([], .error .not_in_repository)
  | some git_repo_root =>
    let image_tag := env.git_head_sha
    let develop_directory := os_path_join (os_path_join git_repo_root ".qhub") "develop"
    let t0 : List Event := [Event.minikube_start kubernetes_version profile]
    if env.minikube_status = false then
      (t0 ++ [Event.minikube_status profile false], .error .cluster_start_failed)
    else
      let t1 := t0 ++ [Event.minikube_status profile true,
                       Event.configure_metallb profile,
                       Event.addons_enable "metallb" profile]
      let buildEvents : List Event :=
        if build_images then
          let r := list_dockerfile_images QHUB_IMAGE_DIRECTORY env.image_dir_listing
          (r.1.zip r.2).map (fun pn =>
            Event.image_build pn.1 QHUB_IMAGE_DIRECTORY pn.2 image_tag profile)
        else []
      let t2 := t1 ++ buildEvents
      let r := initialize_configuration env.render_config env.load_config
        develop_directory image_tag build_images domain config
      let t3 := t2 ++ [Event.init_config develop_directory image_tag build_images domain]
      match r.2 with
      | .error e => (t3, .error (.key_error e))
      | .ok doc =>
        (t3 ++ [Event.render_template develop_directory
                  (os_path_join develop_directory "qhub-config.yaml") true,
                Event.deploy_configuration doc,
                Event.download_minikube],
         .ok doc)

/-- The image reference string `f"{image_name}:{image_tag}"` formed in the
build loop of `develop`. -/
def image_ref (image_name image_tag : String) : String :=
  image_name ++ ":" ++ image_tag

/-! ## Sample inputs used by witnesses and counterexamples -/

/-- A small but fully populated base configuration document. -/
def cfgSample : Config :=
  { domain := some "orig.example.com",
    default_images := some [("jupyterhub", "old:1")],
    profiles := some
      { jupyterlab := some [{ kubespawner_override := some [("cpu_limit", "1")],
                              rest := [("display_name", "Small")] }],
        dask_worker := some [("small", { image := some "old-worker:1" })] } }

/-- The document `initialize_configuration` produces from `cfgSample` with
build identifier `T` and domain `example.com`. -/
def cfgSampleOut : Config :=
  { domain := some "example.com",
    default_images := some (defaultImages "T"),
    profiles := some
      { jupyterlab := some [{ kubespawner_override :=
                                some [("cpu_limit", "1"), ("image", "jupyterlab:T")],
                              rest := [("display_name", "Small")] }],
        dask_worker := some [("small", { image := some "dask-worker:T" })] } }

/-- A base document with no `profiles` key at all. -/
def cfgNoProfiles : Config :=
  { domain := some "orig.example.com" }

/-- A base document whose single JupyterLab profile lacks the
`kubespawner_override` key. -/
def cfgNoKO : Config :=
  { profiles := some
      { jupyterlab := some [{ kubespawner_override := none,
                              rest := [("display_name", "Bare")] }],
        dask_worker := some [] } }

/-- A healthy environment with one Dockerfile in the image directory. -/
def envSample : Env :=
  { git_repo_root := some "/repo",
    git_head_sha := "abc123",
    minikube_status := true,
    image_dir_listing := ["Dockerfile.jupyterlab", "README.md"],
    render_config := fun _ => cfgSample,
    load_config := fun _ => cfgSample }

/-- The same environment with minikube reporting unhealthy status. -/
def envUnhealthy : Env :=
  { envSample with minikube_status := false }

/-- The same environment with no Dockerfile-prefixed files in the listing. -/
def envNoDockerfiles : Env :=
  { envSample with image_dir_listing := ["README.md", "environment.yaml"] }

/-! ## Helper lemmas -/

/-- The function `list_dockerfile_images` is the filter of the listing by the
`Dockerfile` prefix, mapped to joined paths and to extension-derived names. -/
theorem list_dockerfile_images_eq (d : String) (l : List String) :
    list_dockerfile_images d l =
      ((l.filter (fun p => startswith p "Dockerfile")).map (fun p => os_path_join d p),
       (l.filter (fun p => startswith p "Dockerfile")).map (fun p => (splitext p).2.drop 1)) := by
  induction l with
  | nil => rfl
  | cons x xs ih =>
    cases hx : startswith x "Dockerfile" with
    | true => simp [list_dockerfile_images, List.filter_cons, hx, ih]
    | false => simp [list_dockerfile_images, List.filter_cons, hx, ih]

/-- A list with no entry satisfying the predicate finds none. -/
theorem find?_of_any_false {α : Type} (p : α → Bool) (l : List α)
    (h : l.any p = false) : l.find? p = none := by
  rw [List.find?_eq_none]
  intro x hx
  simp [List.any_eq_false] at h
  simp [h x hx]

/-- When some entry of `m` has key `k`, overwriting that entry in place makes
`k` look up the new value. -/
theorem find?_map_overwrite (m : Smap) (k v : String)
    (h : m.any (fun kv => kv.1 == k) = true) :
    (m.map (fun kv => if kv.1 == k then (k, v) else kv)).find? (fun kv => kv.1 == k) =
      some (k, v) := by
  induction m with
  | nil => simp at h
  | cons x tl ih =>
    rw [List.map_cons]
    by_cases hx : (x.1 == k) = true
    · rw [if_pos hx, List.find?_cons_of_pos _ (by simp)]
    · have hx' : (x.1 == k) = false := by simpa using hx
      rw [if_neg hx, List.find?_cons_of_neg _ (by simpa using hx)]
      rw [List.any_cons, hx', Bool.false_or] at h
      exact ih h

/-- Python dict write/read round trip: after `m[k] = v`, looking up `k`
yields `v`. -/
theorem dictGet_dictSet (m : Smap) (k v : String) :
    dictGet (dictSet m k v) k = some v := by
  unfold dictGet dictSet
  cases ha : m.any (fun kv => kv.1 == k) with
  | true =>
    rw [if_pos rfl, find?_map_overwrite m k v ha]
    rfl
  | false =>
    rw [if_neg (by simp), List.find?_append, find?_of_any_false _ m ha]
    simp

/-- Right-to-left membership transfer along `List.Forall₂`. -/
theorem forall₂_mem_right {α β : Type} {R : α → β → Prop} {l : List α}
    {l' : List β} (h : List.Forall₂ R l l') {b : β} (hb : b ∈ l') :
    ∃ a ∈ l, R a b := by
  induction h with
  | nil => cases hb
  | cons hr _ ih =>
    rcases List.mem_cons.mp hb with rfl | hb'
    · exact ⟨_, List.mem_cons_self _ _, hr⟩
    · rcases ih hb' with ⟨a, ha, har⟩
      exact ⟨a, List.mem_cons_of_mem _ ha, har⟩

/-- A successful JupyterLab override loop rewrites exactly the nested
`kubespawner_override` image of every profile and touches nothing else. -/
theorem overrideJLProfiles_ok (t : String) (jl jl' : List JLProfile)
    (h : overrideJLProfiles t jl = .ok jl') :
    List.Forall₂ (fun p p' => ∃ ko, p.kubespawner_override = some ko ∧
      p'.kubespawner_override = some (dictSet ko "image" ("jupyterlab:" ++ t)) ∧
      p'.rest = p.rest) jl jl' := by
  induction jl generalizing jl' with
  | nil =>
    cases h
    exact .nil
  | cons p rest ih =>
    unfold overrideJLProfiles at h
    cases hko : p.kubespawner_override with
    | none => rw [hko] at h; cases h
    | some ko =>
      rw [hko] at h
      cases hrest : overrideJLProfiles t rest with
      | error e => rw [hrest] at h; cases h
      | ok rest' =>
        rw [hrest] at h
        cases h
        exact .cons ⟨ko, hko, rfl, rfl⟩ (ih _ hrest)

/-- The JupyterLab override loop raises `KeyError` on `kubespawner_override`
whenever some profile in the list lacks that key. -/
theorem overrideJLProfiles_error (t : String) (jl : List JLProfile)
    (h : ∃ p ∈ jl, p.kubespawner_override = none) :
    overrideJLProfiles t jl = .error .kubespawner_override := by
  induction jl with
  | nil => simp at h
  | cons p rest ih =>
    rcases h with ⟨q, hq, hqe⟩
    unfold overrideJLProfiles
    cases hko : p.kubespawner_override with
    | none => rfl
    | some ko =>
      rcases List.mem_cons.mp hq with rfl | hq'
      · rw [hko] at hqe; cases hqe
      · rw [ih ⟨q, hq', hqe⟩]

/-- Shape of a successful `if build_images:` block: domain and all other
top-level keys untouched, the five default images installed, and both profile
collections rewritten through the two override loops. -/
theorem applyBuildImages_ok_spec (t : String) (c c' : Config)
    (h : applyBuildImages t c = .ok c') :
    c'.domain = c.domain ∧ c'.rest = c.rest ∧
    c'.default_images = some (defaultImages t) ∧
    ∃ profs jl jl' dw, c.profiles = some profs ∧ profs.jupyterlab = some jl ∧
      profs.dask_worker = some dw ∧ overrideJLProfiles t jl = .ok jl' ∧
      c'.profiles = some { profs with jupyterlab := some jl', dask_worker := some (overrideDaskProfiles t dw) } := by
  unfold applyBuildImages at h
  cases hp : c.profiles with
  | none => rw [hp] at h; cases h
  | some profs =>
    rw [hp] at h
    dsimp only at h
    cases hjl : profs.jupyterlab with
    | none => rw [hjl] at h; cases h
    | some jl =>
      rw [hjl] at h
      dsimp only at h
      cases hov : overrideJLProfiles t jl with
      | error e => rw [hov] at h; cases h
      | ok jl' =>
        rw [hov] at h
        dsimp only at h
        cases hdw : profs.dask_worker with
        | none => rw [hdw] at h; cases h
        | some dw =>
          rw [hdw] at h
          dsimp only at h
          cases h
          exact ⟨rfl, rfl, rfl, profs, jl, jl', dw, rfl, hjl, hdw, hov, rfl⟩

/-! ## Claims about image discovery -/

/-- C3: a directory whose listing holds N `Dockerfile`-prefixed files and M
other files yields exactly N parallel (path, name) pairs, in listing order,
unaffected by the non-matching files, each name derived from the
extension-like suffix of the matching file. -/
theorem image_discovery_filters_and_names (d : String) (l : List String) :
    list_dockerfile_images d l =
      ((l.filter (fun p => startswith p "Dockerfile")).map (fun p => os_path_join d p),
       (l.filter (fun p => startswith p "Dockerfile")).map (fun p => (splitext p).2.drop 1)) ∧
    (list_dockerfile_images d l).1.length =
      (l.filter (fun p => startswith p "Dockerfile")).length ∧
    (list_dockerfile_images d l).2.length =
      (l.filter (fun p => startswith p "Dockerfile")).length ∧
    list_dockerfile_images d (l.filter (fun p => startswith p "Dockerfile")) =
      list_dockerfile_images d l := by
  refine ⟨list_dockerfile_images_eq d l, ?_, ?_, ?_⟩
  · rw [list_dockerfile_images_eq]; simp
  · rw [list_dockerfile_images_eq]; simp
  · rw [list_dockerfile_images_eq, list_dockerfile_images_eq, List.filter_filter]
    simp

/-- C9: a file named exactly `Dockerfile` is discovered with the empty
logical name, and the image reference derived for it is `:tag`. -/
theorem bare_dockerfile_empty_name (d tag : String) (before after : List String) :
    (os_path_join d "Dockerfile", "") ∈
      ((list_dockerfile_images d (before ++ "Dockerfile" :: after)).1.zip
       (list_dockerfile_images d (before ++ "Dockerfile" :: after)).2) ∧
    image_ref "" tag = ":" ++ tag := by
  constructor
  · rw [list_dockerfile_images_eq, List.zip_map']
    refine List.mem_map.mpr
      ⟨"Dockerfile", ?_, by rw [show (splitext "Dockerfile").2.drop 1 = "" from by decide]⟩
    refine List.mem_filter.mpr ⟨?_, by decide⟩
    exact List.mem_append.mpr (Or.inr (List.mem_cons_self _ _))
  · show "" ++ ":" ++ tag = ":" ++ tag
    simp

/-! ## Claims about configuration synthesis -/

/-- The function `initialize_configuration` unfolded to a case split on the outcome of the
(possibly skipped) build-image block over the domain-overridden base. -/
theorem initialize_configuration_cases (rc lc : String → Config) (d t : String)
    (bi : Bool) (dom : String) (cfg : Option String) :
    initialize_configuration rc lc d t bi dom cfg =
      (match (if bi then applyBuildImages t { base_config rc lc dom cfg with domain := some dom } else .ok { base_config rc lc dom cfg with domain := some dom }) with
       | .error e => ([], .error e)
       | .ok c2 => ([FsOp.makedirs d, FsOp.write_yaml (os_path_join d "qhub-config.yaml") c2], .ok c2)) := rfl

/-- C4: whatever the base document (loaded or default) and the build flag, the
returned document carries the supplied domain. -/
theorem domain_override_absolute (rc lc : String → Config) (d t dom : String)
    (bi : Bool) (cfg : Option String) (c : Config)
    (h : (initialize_configuration rc lc d t bi dom cfg).2 = .ok c) :
    c.domain = some dom := by
  rw [initialize_configuration_cases] at h
  cases bi with
  | false =>
    cases h
    rfl
  | true =>
    cases hab : applyBuildImages t { base_config rc lc dom cfg with domain := some dom } with
    | error e => rw [hab] at h; cases h
    | ok c2 =>
      rw [hab] at h
      cases h
      exact (applyBuildImages_ok_spec t _ _ hab).1

/-- Witness for C4 at a concrete run. -/
theorem domain_override_absolute_witness : cfgSampleOut.domain = some "example.com" :=
  domain_override_absolute (fun _ => cfgSample) (fun _ => cfgSample) "dev" "T"
    "example.com" true none cfgSampleOut (by decide)

/-- C6: with `build_images=false` the run succeeds, and the persisted and
returned document is the base document with only its domain replaced: the
default-image mapping, the profiles and every other key are those of the base. -/
theorem no_build_frame (rc lc : String → Config) (d t dom : String)
    (cfg : Option String) :
    initialize_configuration rc lc d t false dom cfg =
      ([FsOp.makedirs d, FsOp.write_yaml (os_path_join d "qhub-config.yaml") { base_config rc lc dom cfg with domain := some dom }],
       .ok { base_config rc lc dom cfg with domain := some dom }) := rfl

/-- C7: an override document with no `profiles` key makes the build-enabled
synthesis raise `KeyError` on `profiles` and write nothing, rather than
silently skipping the profile-override step. -/
theorem missing_profiles_key_error (rc lc : String → Config) (d t dom p : String)
    (h : (lc p).profiles = none) :
    initialize_configuration rc lc d t true dom (some p) =
      ([], .error KeyErr.profiles) := by
  have hab : applyBuildImages t { lc p with domain := some dom } =
      .error KeyErr.profiles := by
    unfold applyBuildImages
    rw [show ({ lc p with domain := some dom } : Config).profiles = none from h]
  rw [initialize_configuration_cases]
  dsimp only [base_config]
  rw [hab]
  rfl

/-- C2 counterexample: in a successful build-enabled run with identifier `T`,
the default-image entry for the component named `dask_worker` is
`dask-worker:T`, not the `dask_worker:T` the claim (componentName:T for each
of the five names) requires. -/
theorem default_images_hyphen_counterexample :
    (initialize_configuration (fun _ => cfgSample) (fun _ => cfgSample) "dev" "T"
      true "example.com" none).2 = Except.ok cfgSampleOut ∧
    cfgSampleOut.default_images = some (defaultImages "T") ∧
    dictGet (defaultImages "T") "dask_worker" = some "dask-worker:T" ∧
    dictGet (defaultImages "T") "dask_worker" ≠ some ("dask_worker" ++ ":" ++ "T") :=
  ⟨by decide, by decide, by decide, by decide⟩

/-- C2 (amended): with `build_images=true` and identifier `T`, the returned
default-image mapping of the returned document is exactly the five fixed component names
`jupyterhub, jupyterlab, dask_worker, dask_gateway, conda_store` mapped to
`jupyterhub:T`, `jupyterlab:T`, `dask-worker:T`, `dask-gateway:T`,
`conda-store:T` (the three multi-word components use hyphenated image names);
the `kubespawner_override` image of every JupyterLab profile is `jupyterlab:T` and
the image of every Dask worker profile is `dask-worker:T`. -/
theorem build_overrides_amended (rc lc : String → Config) (d T dom : String)
    (cfg : Option String) (c : Config)
    (h : (initialize_configuration rc lc d T true dom cfg).2 = .ok c) :
    c.default_images = some [("jupyterhub", "jupyterhub:" ++ T), ("jupyterlab", "jupyterlab:" ++ T), ("dask_worker", "dask-worker:" ++ T), ("dask_gateway", "dask-gateway:" ++ T), ("conda_store", "conda-store:" ++ T)] ∧
    (∃ ps, c.profiles = some ps ∧
      (∃ jl, ps.jupyterlab = some jl ∧ ∀ p ∈ jl,
        ∃ ko, p.kubespawner_override = some ko ∧
          dictGet ko "image" = some ("jupyterlab:" ++ T)) ∧
      (∃ dw, ps.dask_worker = some dw ∧
        ∀ np ∈ dw, np.2.image = some ("dask-worker:" ++ T))) := by
  rw [initialize_configuration_cases] at h
  cases hab : applyBuildImages T { base_config rc lc dom cfg with domain := some dom } with
  | error e => rw [hab] at h; cases h
  | ok c2 =>
    rw [hab] at h
    cases h
    obtain ⟨-, -, hdi, profs, jl, jl', dw, -, -, -, hov, hps⟩ :=
      applyBuildImages_ok_spec T _ _ hab
    refine ⟨hdi, { profs with jupyterlab := some jl', dask_worker := some (overrideDaskProfiles T dw) }, hps, ⟨jl', rfl, ?_⟩, ⟨overrideDaskProfiles T dw, rfl, ?_⟩⟩
    · intro p' hp'
      obtain ⟨p, -, ko, -, hko', -⟩ :=
        forall₂_mem_right (overrideJLProfiles_ok T jl jl' hov) hp'
      exact ⟨dictSet ko "image" ("jupyterlab:" ++ T), hko', dictGet_dictSet ko _ _⟩
    · intro np hnp
      obtain ⟨mp, -, hmp⟩ := List.mem_map.mp hnp
      rw [← hmp]

/-- Witness for the amended C2 at a concrete run. -/
theorem build_overrides_amended_witness :
    cfgSampleOut.default_images = some [("jupyterhub", "jupyterhub:" ++ "T"), ("jupyterlab", "jupyterlab:" ++ "T"), ("dask_worker", "dask-worker:" ++ "T"), ("dask_gateway", "dask-gateway:" ++ "T"), ("conda_store", "conda-store:" ++ "T")] ∧
    (∃ ps, cfgSampleOut.profiles = some ps ∧
      (∃ jl, ps.jupyterlab = some jl ∧ ∀ p ∈ jl,
        ∃ ko, p.kubespawner_override = some ko ∧
          dictGet ko "image" = some ("jupyterlab:" ++ "T")) ∧
      (∃ dw, ps.dask_worker = some dw ∧
        ∀ np ∈ dw, np.2.image = some ("dask-worker:" ++ "T"))) :=
  build_overrides_amended (fun _ => cfgSample) (fun _ => cfgSample) "dev" "T"
    "example.com" none cfgSampleOut (by decide)

/-- C10: with `build_images=true`, (a) on success each JupyterLab profile of
the base document corresponds to an output profile whose nested
`kubespawner_override` mapping received the image entry while the top-level
keys of the profile are unchanged, and (b) a JupyterLab profile lacking the
`kubespawner_override` key makes the whole call fail with that `KeyError`
before any directory creation or file write. -/
theorem kubespawner_override_nested (rc lc : String → Config) (d T dom : String)
    (cfg : Option String) :
    (∀ c, (initialize_configuration rc lc d T true dom cfg).2 = .ok c →
      ∃ ps jl ps' jl', (base_config rc lc dom cfg).profiles = some ps ∧
        ps.jupyterlab = some jl ∧ c.profiles = some ps' ∧
        ps'.jupyterlab = some jl' ∧
        List.Forall₂ (fun p p' => ∃ ko, p.kubespawner_override = some ko ∧
          p'.kubespawner_override = some (dictSet ko "image" ("jupyterlab:" ++ T)) ∧
          p'.rest = p.rest) jl jl') ∧
    (∀ ps jl, (base_config rc lc dom cfg).profiles = some ps →
      ps.jupyterlab = some jl → (∃ p ∈ jl, p.kubespawner_override = none) →
      initialize_configuration rc lc d T true dom cfg =
        ([], .error KeyErr.kubespawner_override)) := by
  constructor
  · intro c h
    rw [initialize_configuration_cases] at h
    cases hab : applyBuildImages T { base_config rc lc dom cfg with domain := some dom } with
    | error e => rw [hab] at h; cases h
    | ok c2 =>
      rw [hab] at h
      cases h
      obtain ⟨-, -, -, profs, jl, jl', dw, hp, hjl, -, hov, hps⟩ :=
        applyBuildImages_ok_spec T _ _ hab
      exact ⟨profs, jl, _, jl', hp, hjl, hps, rfl, overrideJLProfiles_ok T jl jl' hov⟩
  · intro ps jl hps hjl hmiss
    have hab : applyBuildImages T { base_config rc lc dom cfg with domain := some dom } =
        .error KeyErr.kubespawner_override := by
      unfold applyBuildImages
      rw [show ({ base_config rc lc dom cfg with domain := some dom } : Config).profiles = some ps from hps]
      dsimp only
      rw [hjl]
      dsimp only
      rw [overrideJLProfiles_error T jl hmiss]
    rw [initialize_configuration_cases, hab]
    rfl

/-- Witness for C10: part (b) at a base document whose JupyterLab profile
lacks `kubespawner_override`, part (a) at a fully populated base document. -/
theorem kubespawner_override_nested_witness :
    initialize_configuration (fun _ => cfgNoKO) (fun _ => cfgNoKO) "dev" "T"
      true "example.com" none = ([], .error KeyErr.kubespawner_override) ∧
    (∃ ps jl ps' jl',
      (base_config (fun _ => cfgSample) (fun _ => cfgSample) "example.com" none).profiles = some ps ∧
      ps.jupyterlab = some jl ∧ cfgSampleOut.profiles = some ps' ∧
      ps'.jupyterlab = some jl' ∧
      List.Forall₂ (fun p p' => ∃ ko, p.kubespawner_override = some ko ∧
        p'.kubespawner_override = some (dictSet ko "image" ("jupyterlab:" ++ "T")) ∧
        p'.rest = p.rest) jl jl') := by
  constructor
  · exact (kubespawner_override_nested (fun _ => cfgNoKO) (fun _ => cfgNoKO) "dev" "T"
      "example.com" none).2 _ _ rfl rfl
      ⟨{ kubespawner_override := none, rest := [("display_name", "Bare")] },
        List.mem_singleton.mpr rfl, rfl⟩
  · exact (kubespawner_override_nested (fun _ => cfgSample) (fun _ => cfgSample) "dev" "T"
      "example.com" none).1 cfgSampleOut (by decide)

/-- Witness for C7 at a concrete run. -/
theorem missing_profiles_key_error_witness :
    initialize_configuration (fun _ => cfgNoProfiles) (fun _ => cfgNoProfiles)
      "dev" "T" true "example.com" (some "base.yaml") =
      ([], .error KeyErr.profiles) :=
  missing_profiles_key_error (fun _ => cfgNoProfiles) (fun _ => cfgNoProfiles)
    "dev" "T" "example.com" "base.yaml" (by decide)

/-! ## Claims about the develop pipeline -/

/-- A run outside a git repository aborts immediately with no events. -/
theorem develop_eq_norepo (env : Env) (bi : Bool) (profile kv dom : String)
    (cfg : Option String) (h : env.git_repo_root = none) :
    develop env bi profile kv dom cfg = ([], .error .not_in_repository) := by
  unfold develop
  rw [h]

/-- With a git root and unhealthy minikube status, the run is exactly start,
status(false), abort with the cluster-start error. -/
theorem develop_eq_unhealthy (env : Env) (bi : Bool) (profile kv dom : String)
    (cfg : Option String) (root : String) (h1 : env.git_repo_root = some root)
    (h2 : env.minikube_status = false) :
    develop env bi profile kv dom cfg =
      ([Event.minikube_start kv profile, Event.minikube_status profile false],
       .error .cluster_start_failed) := by
  unfold develop
  rw [h1]
  simp [h2]

/-- Normal form of a healthy run: the four provisioning events, then the
build events, then the synthesis call, then (on synthesis success) render,
deploy and the binary download. -/
theorem develop_eq_healthy (env : Env) (bi : Bool) (profile kv dom : String)
    (cfg : Option String) (root : String) (h1 : env.git_repo_root = some root)
    (h2 : env.minikube_status = true) :
    develop env bi profile kv dom cfg =
      ([Event.minikube_start kv profile, Event.minikube_status profile true,
        Event.configure_metallb profile, Event.addons_enable "metallb" profile] ++
       ((if bi then
          ((list_dockerfile_images QHUB_IMAGE_DIRECTORY env.image_dir_listing).1.zip
           (list_dockerfile_images QHUB_IMAGE_DIRECTORY env.image_dir_listing).2).map
            (fun pn => Event.image_build pn.1 QHUB_IMAGE_DIRECTORY pn.2 env.git_head_sha profile)
        else []) ++
        ([Event.init_config (os_path_join (os_path_join root ".qhub") "develop") env.git_head_sha bi dom] ++
         (match (initialize_configuration env.render_config env.load_config (os_path_join (os_path_join root ".qhub") "develop") env.git_head_sha bi dom cfg).2 with
          | .error _ => []
          | .ok doc => [Event.render_template (os_path_join (os_path_join root ".qhub") "develop") (os_path_join (os_path_join (os_path_join root ".qhub") "develop") "qhub-config.yaml") true, Event.deploy_configuration doc, Event.download_minikube]))),
       match (initialize_configuration env.render_config env.load_config (os_path_join (os_path_join root ".qhub") "develop") env.git_head_sha bi dom cfg).2 with
       | .error e => .error (.key_error e)
       | .ok doc => .ok doc) := by
  unfold develop
  rw [h1]
  dsimp only
  rw [if_neg (by simp [h2])]
  rcases hr : (initialize_configuration env.render_config env.load_config (os_path_join (os_path_join root ".qhub") "develop") env.git_head_sha bi dom cfg).2 with e | doc
  · dsimp only
    simp only [List.cons_append, List.nil_append, List.append_assoc, List.append_nil]
  · dsimp only
    simp only [List.cons_append, List.nil_append, List.append_assoc, List.append_nil]

/-- C1: within one run the build identifier is the HEAD sha, derived once:
every image-build event carries tag `env.git_head_sha`, and the
`initialize_configuration` call receives the same value as its image tag. -/
theorem single_build_identifier (env : Env) (bi : Bool) (profile kv dom : String)
    (cfg : Option String) :
    (∀ p c n t pr, Event.image_build p c n t pr ∈ (develop env bi profile kv dom cfg).1 →
      t = env.git_head_sha) ∧
    (∀ d t b dm, Event.init_config d t b dm ∈ (develop env bi profile kv dom cfg).1 →
      t = env.git_head_sha) := by
  cases henv : env.git_repo_root with
  | none =>
    rw [develop_eq_norepo env bi profile kv dom cfg henv]
    exact ⟨fun p c n t pr h => by simp at h, fun d t b dm h => by simp at h⟩
  | some root =>
    cases hst : env.minikube_status with
    | false =>
      rw [develop_eq_unhealthy env bi profile kv dom cfg root henv hst]
      exact ⟨fun p c n t pr h => by simp at h, fun d t b dm h => by simp at h⟩
    | true =>
      rw [develop_eq_healthy env bi profile kv dom cfg root henv hst]
      rcases hr : (initialize_configuration env.render_config env.load_config (os_path_join (os_path_join root ".qhub") "develop") env.git_head_sha bi dom cfg).2 with e | doc <;>
      cases bi <;>
      refine ⟨fun p c n t pr h => ?_, fun d t b dm h => ?_⟩ <;>
      simp_all <;>
      (obtain ⟨a, b, -, -, -, -, ht, -⟩ := h; exact ht.symm)

/-- Witness for C1: the one build event of a concrete healthy run carries the
HEAD sha of the environment. -/
theorem single_build_identifier_witness : "abc123" = envSample.git_head_sha :=
  (single_build_identifier envSample true "qhub" "v1.20.2" "example.com" none).1
    (os_path_join QHUB_IMAGE_DIRECTORY "Dockerfile.jupyterlab") QHUB_IMAGE_DIRECTORY
    "jupyterlab" "abc123" "qhub" (by decide)

/-- C5: an image-build event can only occur after the cluster status reported
healthy (the trace splits with the healthy-status event strictly before the
build), and an unhealthy status after start aborts the run with the
cluster-start error before any build or synthesis event. -/
theorem builds_only_after_healthy (env : Env) (bi : Bool)
    (profile kv dom : String) (cfg : Option String) :
    (∀ p c n t pr, Event.image_build p c n t pr ∈ (develop env bi profile kv dom cfg).1 →
      ∃ l1 l2, (develop env bi profile kv dom cfg).1 = l1 ++ l2 ∧
        Event.minikube_status profile true ∈ l1 ∧
        Event.image_build p c n t pr ∈ l2) ∧
    (∀ root, env.git_repo_root = some root → env.minikube_status = false →
      develop env bi profile kv dom cfg =
        ([Event.minikube_start kv profile, Event.minikube_status profile false],
         .error QHubErr.cluster_start_failed)) := by
  constructor
  · intro p c n t pr h
    cases henv : env.git_repo_root with
    | none =>
      rw [develop_eq_norepo env bi profile kv dom cfg henv] at h
      simp at h
    | some root =>
      cases hst : env.minikube_status with
      | false =>
        rw [develop_eq_unhealthy env bi profile kv dom cfg root henv hst] at h
        simp at h
      | true =>
        rw [develop_eq_healthy env bi profile kv dom cfg root henv hst] at h ⊢
        refine ⟨_, _, rfl, by simp, ?_⟩
        rcases List.mem_append.mp h with hh | hh
        · simp at hh
        · exact hh
  · intro root h1 h2
    exact develop_eq_unhealthy env bi profile kv dom cfg root h1 h2

/-- Witness for C5: the concrete healthy run splits around its build event,
and the concrete unhealthy run is exactly the two-event abort. -/
theorem builds_only_after_healthy_witness :
    (∃ l1 l2, (develop envSample true "qhub" "v1.20.2" "example.com" none).1 = l1 ++ l2 ∧
      Event.minikube_status "qhub" true ∈ l1 ∧
      Event.image_build (os_path_join QHUB_IMAGE_DIRECTORY "Dockerfile.jupyterlab")
        QHUB_IMAGE_DIRECTORY "jupyterlab" "abc123" "qhub" ∈ l2) ∧
    develop envUnhealthy true "qhub" "v1.20.2" "example.com" none =
      ([Event.minikube_start "v1.20.2" "qhub", Event.minikube_status "qhub" false],
       .error QHubErr.cluster_start_failed) :=
  ⟨(builds_only_after_healthy envSample true "qhub" "v1.20.2" "example.com" none).1
      _ _ _ _ _ (by decide),
   (builds_only_after_healthy envUnhealthy true "qhub" "v1.20.2" "example.com" none).2
      "/repo" rfl rfl⟩

/-- C8: with no Dockerfile-prefixed files in the image directory and builds
enabled, the run performs zero image builds and still reaches the
configuration-synthesis call. -/
theorem empty_image_dir_no_builds (env : Env) (profile kv dom : String)
    (cfg : Option String) (root : String)
    (h1 : env.git_repo_root = some root) (h2 : env.minikube_status = true)
    (h3 : env.image_dir_listing.all (fun p => !(startswith p "Dockerfile")) = true) :
    (∀ p c n t pr, Event.image_build p c n t pr ∉ (develop env true profile kv dom cfg).1) ∧
    Event.init_config (os_path_join (os_path_join root ".qhub") "develop")
      env.git_head_sha true dom ∈ (develop env true profile kv dom cfg).1 := by
  have hnil : env.image_dir_listing.filter (fun p => startswith p "Dockerfile") = [] := by
    rw [List.filter_eq_nil_iff]
    intro a ha
    simpa using List.all_eq_true.mp h3 a ha
  have hl : list_dockerfile_images QHUB_IMAGE_DIRECTORY env.image_dir_listing = ([], []) := by
    rw [list_dockerfile_images_eq, hnil]
    rfl
  rw [develop_eq_healthy env true profile kv dom cfg root h1 h2, hl]
  rcases hr : (initialize_configuration env.render_config env.load_config (os_path_join (os_path_join root ".qhub") "develop") env.git_head_sha true dom cfg).2 with e | doc <;>
  · constructor
    · intro p c n t pr h
      simp at h
    · simp

/-- Witness for C8 at a concrete environment with no Dockerfiles. -/
theorem empty_image_dir_no_builds_witness :
    Event.image_build "p" "c" "n" "abc123" "qhub"
      ∉ (develop envNoDockerfiles true "qhub" "v1.20.2" "example.com" none).1 ∧
    Event.init_config (os_path_join (os_path_join "/repo" ".qhub") "develop")
      "abc123" true "example.com"
      ∈ (develop envNoDockerfiles true "qhub" "v1.20.2" "example.com" none).1 :=
  ⟨(empty_image_dir_no_builds envNoDockerfiles "qhub" "v1.20.2" "example.com" none
      "/repo" rfl rfl (by decide)).1 "p" "c" "n" "abc123" "qhub",
   (empty_image_dir_no_builds envNoDockerfiles "qhub" "v1.20.2" "example.com" none
      "/repo" rfl rfl (by decide)).2⟩

end QHubDev
